import Mathlib

/-!
Verification of the LeadSynthetix decision-orchestration frontend logic.

Shallow embedding of the TypeScript sources:
  - `frontend/lib/utils.ts`            : `confidenceFromVariance`
  - `frontend/lib/demo-cases.ts`       : `applyConfidence`, `DEMO_CASES`
  - dashboard page (`MOCK_LOANS`), decision page (`FALLBACK_LOAN`,
    `FALLBACK_MEMOS`, `FALLBACK_RISK`)
  - `DebateTimeline` (`groupIntoRounds`), `RiskPanel` (`aggregateRisk`)

JavaScript numbers are embedded as exact rationals (`ℚ`); `Math.round`
is `jsRound q = ⌊q + 1/2⌋` (round half toward positive infinity), and
`Math.floor`-free code needs nothing else.  `created_at` fields are
runtime timestamps (`new Date().toISOString()`): they carry no
information used by any property below (chronology is the list order),
so they are omitted from the embedded records.
-/

namespace LeadSynthetix

/-- JavaScript `Math.round`: round half toward positive infinity. -/
def jsRound (q : ℚ) : ℤ := ⌊q + 1/2⌋

/-- From `frontend/lib/utils.ts`: compute confidence (0–1) from Sales vs
Risk score variance, rounded to 2 decimal places via `Math.round(c*100)/100`. -/
def confidenceFromVariance (salesScore riskScore : ℚ) : ℚ :=
  let variance : ℚ := |salesScore - riskScore|
  let confidence : ℚ :=
    if variance ≤ 10 then 1.0 - 0.01 * variance
    else if variance ≤ 20 then 0.9 - 0.02 * (variance - 10)
    else if variance ≤ 40 then 0.7 - 0.01 * (variance - 20)
    else max 0.1 (0.5 - 0.005 * (variance - 40))
  (jsRound (confidence * 100) : ℚ) / 100

/-- The un-rounded piecewise confidence law, as a function of the variance. -/
def rawConfidence (variance : ℚ) : ℚ :=
  if variance ≤ 10 then 1.0 - 0.01 * variance
  else if variance ≤ 20 then 0.9 - 0.02 * (variance - 10)
  else if variance ≤ 40 then 0.7 - 0.01 * (variance - 20)
  else max 0.1 (0.5 - 0.005 * (variance - 40))

/-- From `frontend/types/index.ts`: `LoanStatus`. -/
inductive LoanStatus where
  | Pending
  | Approved
  | Rejected
deriving DecidableEq

/-- From `frontend/types/index.ts`: the closed `agent_type` union. -/
inductive AgentType where
  | Sales
  | Risk
  | Compliance
  | Moderator
deriving DecidableEq

/-- From `frontend/types/index.ts`: `ExtractionResult`. -/
structure ExtractionResult where
  revenue : Option ℚ
  debt : Option ℚ
  dscr : Option ℚ
  collateral_present : Bool
  compliance_keywords : List String
deriving DecidableEq

/-- From `frontend/types/index.ts`: `AgentMemo` (the `created_at`
timestamp, a runtime clock reading, is omitted; chronology is list order). -/
structure AgentMemo where
  id : String
  agent_type : AgentType
  content : String
  risk_score : Option ℚ
deriving DecidableEq

/-- From `frontend/types/index.ts`: `CategoryScore`. -/
structure CategoryScore where
  score : ℚ
  evidence : List String
deriving DecidableEq

/-- From `frontend/types/index.ts`: `RiskMatrix`. -/
structure RiskMatrix where
  financial_risk : CategoryScore
  growth_strength : CategoryScore
  regulatory_risk : CategoryScore
  reputation_risk : CategoryScore
deriving DecidableEq

/-- From `frontend/types/index.ts`: `LoanApplication` (sans `created_at`). -/
structure LoanApplication where
  id : String
  company_name : String
  industry : String
  requested_amount : ℚ
  extracted_financials : Option ExtractionResult
  status : LoanStatus
  workflow_state : String
  final_score : Option ℚ
  compliance_flag : Bool
  confidence_score : Option ℚ
deriving DecidableEq

/-- From `frontend/lib/demo-cases.ts`: `DemoCase`. -/
structure DemoCase where
  loan : LoanApplication
  memos : List AgentMemo
  riskMatrix : RiskMatrix
deriving DecidableEq

/-- From `frontend/lib/demo-cases.ts`: derive `confidence_score` for a demo
case from its Sales and Risk memos; for compliance-flag auto-rejects the
confidence is always 1.0.  The TypeScript mutates `c` in place; here the
updated record is returned. -/
def applyConfidence (c : DemoCase) : DemoCase :=
  if c.loan.compliance_flag then
    { c with loan := { c.loan with confidence_score := some 1.0 } }
  else
    let salesMemo := c.memos.find? (fun m => m.agent_type = AgentType.Sales)
    let riskMemo := c.memos.find? (fun m => m.agent_type = AgentType.Risk)
    match salesMemo.bind AgentMemo.risk_score, riskMemo.bind AgentMemo.risk_score with
    | some s, some r =>
        { c with loan := { c.loan with confidence_score := some (confidenceFromVariance s r) } }
    | _, _ => c

/-- Demo case 1 (`case-1`, TechStart Inc) from `frontend/lib/demo-cases.ts`,
before `applyConfidence` is mapped over the list. -/
def demoCase1 : DemoCase where
  loan :=
    { id := "case-1"
      company_name := "TechStart Inc"
      industry := "Technology"
      requested_amount := 5000000
      extracted_financials := some
        { revenue := some 25000000
          debt := some 8000000
          dscr := some 1.1
          collateral_present := false
          compliance_keywords := [] }
      status := LoanStatus.Rejected
      workflow_state := "FINALIZED"
      final_score := some 16.0
      compliance_flag := false
      confidence_score := none }
  memos :=
    [ { id := "c1-1", agent_type := AgentType.Sales
        content := "Strong growth trajectory. Revenue $25M with expansion potential. Recommend approval."
        risk_score := some 85 }
    , { id := "c1-2", agent_type := AgentType.Risk
        content := "DSCR weak at 1.1, no collateral. High risk profile. Skeptical."
        risk_score := some 45 }
    , { id := "c1-3", agent_type := AgentType.Compliance
        content := "No compliance issues identified."
        risk_score := some 90 }
    , { id := "c1-4", agent_type := AgentType.Moderator
        content := "Moderator synthesis: Sales/Risk divergence > 20. Blended view suggests caution despite growth."
        risk_score := some 62 } ]
  riskMatrix :=
    { financial_risk :=
        { score := 6
          evidence := ["DSCR 1.10 below 1.25 typical covenant", "Debt/Revenue 0.3x"] }
      growth_strength :=
        { score := 7
          evidence := ["Revenue $25.0M solid base", "DSCR 1.10 constrains growth capacity"] }
      regulatory_risk := { score := 1, evidence := ["No compliance keywords detected"] }
      reputation_risk := { score := 1, evidence := ["No reputation risk keywords detected"] } }

/-- Demo case 2 (`case-2`, ManufacturingCo Ltd): the compliance-veto case. -/
def demoCase2 : DemoCase where
  loan :=
    { id := "case-2"
      company_name := "ManufacturingCo Ltd"
      industry := "Manufacturing"
      requested_amount := 10000000
      extracted_financials := some
        { revenue := some 50000000
          debt := some 12000000
          dscr := some 1.4
          collateral_present := true
          compliance_keywords := ["grey list"] }
      status := LoanStatus.Rejected
      workflow_state := "FINALIZED"
      final_score := some 0.0
      compliance_flag := true
      confidence_score := none }
  memos :=
    [ { id := "c2-1", agent_type := AgentType.Sales
        content := "Strong assets and revenue base. Solid manufacturing profile."
        risk_score := some 75 }
    , { id := "c2-2", agent_type := AgentType.Risk
        content := "Solid financial profile. DSCR adequate, collateral present."
        risk_score := some 70 }
    , { id := "c2-3", agent_type := AgentType.Compliance
        content := "Director on grey list. Immediate block. Compliance veto."
        risk_score := some 15 } ]
  riskMatrix :=
    { financial_risk :=
        { score := 4
          evidence := ["DSCR 1.40 adequate buffer", "Debt/Revenue 0.2x",
                       "Collateral present reduces financial risk"] }
      growth_strength :=
        { score := 9
          evidence := ["Revenue $50M indicates scale", "DSCR 1.40 suggests strong cash flow",
                       "Collateral supports financing capacity"] }
      regulatory_risk := { score := 3, evidence := ["Keyword detected: grey list"] }
      reputation_risk := { score := 3, evidence := ["Keyword detected: grey list"] } }

/-- Demo case 3 (`case-3`, StrugglingBiz LLC). -/
def demoCase3 : DemoCase where
  loan :=
    { id := "case-3"
      company_name := "StrugglingBiz LLC"
      industry := "Retail"
      requested_amount := 1500000
      extracted_financials := some
        { revenue := some 2000000
          debt := some 4000000
          dscr := some 0.8
          collateral_present := false
          compliance_keywords := [] }
      status := LoanStatus.Rejected
      workflow_state := "FINALIZED"
      final_score := some 12.0
      compliance_flag := false
      confidence_score := none }
  memos :=
    [ { id := "c3-1", agent_type := AgentType.Sales
        content := "Growth potential in niche market. Some upside."
        risk_score := some 55 }
    , { id := "c3-2", agent_type := AgentType.Risk
        content := "Weak DSCR 0.8, high leverage (2x Debt/Revenue). Reject."
        risk_score := some 25 }
    , { id := "c3-3", agent_type := AgentType.Compliance
        content := "Clean. No compliance flags."
        risk_score := some 85 } ]
  riskMatrix :=
    { financial_risk :=
        { score := 9
          evidence := ["DSCR 0.80 below 1.0 (cannot cover debt service)",
                       "Debt/Revenue 2.0x moderate leverage"] }
      growth_strength :=
        { score := 4
          evidence := ["Revenue $2.0M", "DSCR 0.80 constrains growth capacity"] }
      regulatory_risk := { score := 1, evidence := ["No compliance keywords detected"] }
      reputation_risk := { score := 1, evidence := ["No reputation risk keywords detected"] } }

/-- Demo case 4 (`case-4`, MidCap Industries): the approved case. -/
def demoCase4 : DemoCase where
  loan :=
    { id := "case-4"
      company_name := "MidCap Industries"
      industry := "Manufacturing"
      requested_amount := 3000000
      extracted_financials := some
        { revenue := some 15000000
          debt := some 5000000
          dscr := some 1.35
          collateral_present := true
          compliance_keywords := [] }
      status := LoanStatus.Approved
      workflow_state := "FINALIZED"
      final_score := some 20.4
      compliance_flag := false
      confidence_score := none }
  memos :=
    [ { id := "c4-1", agent_type := AgentType.Sales
        content := "Healthy profile. Strong DSCR, collateral. Approve."
        risk_score := some 86 }
    , { id := "c4-2", agent_type := AgentType.Risk
        content := "Strong DSCR 1.35, manageable leverage. Proceed."
        risk_score := some 35 }
    , { id := "c4-3", agent_type := AgentType.Compliance
        content := "No flags. Clean."
        risk_score := some 88 } ]
  riskMatrix :=
    { financial_risk :=
        { score := 4
          evidence := ["DSCR 1.35 adequate buffer", "Debt/Revenue 0.3x",
                       "Collateral present reduces financial risk"] }
      growth_strength :=
        { score := 8
          evidence := ["Revenue $15.0M solid base", "DSCR 1.35 supports growth capacity",
                       "Collateral supports financing capacity"] }
      regulatory_risk := { score := 1, evidence := ["No compliance keywords detected"] }
      reputation_risk := { score := 1, evidence := ["No reputation risk keywords detected"] } }

/-- From `frontend/lib/demo-cases.ts`: the exported `DEMO_CASES` list — the
four literal cases with `applyConfidence` mapped over them. -/
def DEMO_CASES : List DemoCase :=
  [demoCase1, demoCase2, demoCase3, demoCase4].map applyConfidence

/-- First entry of `MOCK_LOANS` from the dashboard page
(`src/unnamed/part_001`): the three fixture loans shown when no API list
exists.  `demo-1` computes its confidence via `confidenceFromVariance(80,
72)` exactly as the source does; the three entries are named here so each
can be referred to individually. -/
def mockLoan1 : LoanApplication where
  id := "demo-1"
  company_name := "Acme Corp"
  industry := "Manufacturing"
  requested_amount := 2500000
  extracted_financials := none
  status := LoanStatus.Approved
  workflow_state := "FINALIZED"
  final_score := some 28.4
  compliance_flag := false
  confidence_score := some (confidenceFromVariance 80 72)

def mockLoan2 : LoanApplication where
  id := "demo-2"
  company_name := "Beta Industries"
  industry := "Technology"
  requested_amount := 1200000
  extracted_financials := none
  status := LoanStatus.Pending
  workflow_state := "INITIAL_REVIEW"
  final_score := none
  compliance_flag := false
  confidence_score := none

def mockLoan3 : LoanApplication where
  id := "demo-3"
  company_name := "Gamma Holdings"
  industry := "Finance"
  requested_amount := 5000000
  extracted_financials := none
  status := LoanStatus.Rejected
  workflow_state := "FINALIZED"
  final_score := some 12.0
  compliance_flag := true
  confidence_score := some 1.0

def MOCK_LOANS : List LoanApplication :=
  [mockLoan1, mockLoan2, mockLoan3]

/-- From the decision page (`ChatPanel/index.tsx` bundle): `FALLBACK_LOAN`. -/
def FALLBACK_LOAN : LoanApplication where
  id := "demo-1"
  company_name := "Acme Corp"
  industry := "Manufacturing"
  requested_amount := 2500000
  extracted_financials := some
    { revenue := some 12000000
      debt := some 5000000
      dscr := some 1.25
      collateral_present := true
      compliance_keywords := [] }
  status := LoanStatus.Approved
  workflow_state := "FINALIZED"
  final_score := some 28.4
  compliance_flag := false
  confidence_score := some 0.82

/-- From the decision page: `FALLBACK_MEMOS` (Sales 72, Risk 58, Compliance
88, then a Moderator memo). -/
def FALLBACK_MEMOS : List AgentMemo :=
  [ { id := "1", agent_type := AgentType.Sales
      content := "Strong revenue growth and collateral support. Recommend approval."
      risk_score := some 72 }
  , { id := "2", agent_type := AgentType.Risk
      content := "DSCR adequate. Leverage moderate. Proceed with covenant monitoring."
      risk_score := some 58 }
  , { id := "3", agent_type := AgentType.Compliance
      content := "No compliance issues identified. Clean screening."
      risk_score := some 88 }
  , { id := "4", agent_type := AgentType.Moderator
      content := "Consensus reached. Risk-adjusted score supports approval."
      risk_score := some 68 } ]

/-- From the decision page: `FALLBACK_RISK`. -/
def FALLBACK_RISK : RiskMatrix where
  financial_risk :=
    { score := 4, evidence := ["DSCR 1.25 adequate buffer", "Debt/Revenue 0.4x"] }
  growth_strength :=
    { score := 8, evidence := ["Revenue $12M solid base", "Collateral supports capacity"] }
  regulatory_risk := { score := 1, evidence := ["No compliance keywords"] }
  reputation_risk := { score := 1, evidence := ["No reputation keywords"] }

/-- Every fixture loan record shipped by the frontend: the four demo-case
loans (after `applyConfidence`), the three dashboard mock loans, and the
decision-page fallback loan. -/
def shippedLoans : List LoanApplication :=
  DEMO_CASES.map DemoCase.loan ++ MOCK_LOANS ++ [FALLBACK_LOAN]

/-- Every completed debate record (memo list) shipped by the frontend: the
four demo-case memo lists and the decision-page fallback memos. -/
def shippedMemoLists : List (List AgentMemo) :=
  DEMO_CASES.map DemoCase.memos ++ [FALLBACK_MEMOS]

/-- Inner loop of `groupIntoRounds` from `DebateTimeline` (`src/unnamed/
part_003`): walk the memos in order, tagging each with the current per-role
count and incrementing that count.  `agentCounts` models the
`Record<string, number>` keyed by `agent_type` (absent key = 0). -/
def groupGo (agentCounts : AgentType → ℕ) : List AgentMemo → List (ℕ × AgentMemo)
  | [] => []
  | memo :: rest =>
      (agentCounts memo.agent_type, memo) ::
        groupGo
          (fun t => if t = memo.agent_type then agentCounts memo.agent_type + 1
                    else agentCounts t)
          rest

/-- From `DebateTimeline`: group memos into rounds.  Each memo is paired
with its round index; chronological order is kept. -/
def groupIntoRounds (memos : List AgentMemo) : List (ℕ × AgentMemo) :=
  if memos.isEmpty then [] else groupGo (fun _ => 0) memos

/-- From `RiskPanel` (`ChatPanel/index.tsx` bundle): `aggregateRisk`,
`Math.round((r * 0.6 - g * 0.1 + 5) / 1.5)` where `r` averages the three
higher-is-worse categories and `g` is the growth-strength score. -/
def aggregateRisk (rm : RiskMatrix) : ℤ :=
  let r := (rm.financial_risk.score + rm.regulatory_risk.score + rm.reputation_risk.score) / 3
  let g := rm.growth_strength.score
  jsRound ((r * 0.6 - g * 0.1 + 5) / 1.5)

/-- From `RiskPanel`: the displayed overall risk,
`Math.min(10, Math.max(1, aggregateRisk(riskMatrix)))`. -/
def overallRisk (rm : RiskMatrix) : ℤ :=
  min 10 (max 1 (aggregateRisk rm))

/-- The spec's statement of the confidence law, written exactly from the
claim's words: the piecewise function of `v = |sales − risk|` with guards
`0 ≤ v ≤ 10`, `10 < v ≤ 20`, `20 < v ≤ 40`, `v > 40`.  Kept separate from
`rawConfidence` (which is translated from the source) so the two can be
compared. -/
def specPiecewise (v : ℚ) : ℚ :=
  if 0 ≤ v ∧ v ≤ 10 then 1.00 - 0.01 * v
  else if 10 < v ∧ v ≤ 20 then 0.90 - 0.02 * (v - 10)
  else if 20 < v ∧ v ≤ 40 then 0.70 - 0.01 * (v - 20)
  else max 0.10 (0.50 - 0.005 * (v - 40))

/-- Round half-up to 2 decimal places, as the spec words it. -/
def roundHalfUpTo2 (x : ℚ) : ℚ := (⌊x * 100 + 1/2⌋ : ℚ) / 100

/-- Observation: the risk score of the first memo of a given role, the way
`applyConfidence` looks memos up (`find?` then `risk_score`). -/
def memoScore (memos : List AgentMemo) (t : AgentType) : Option ℚ :=
  (memos.find? (fun m => m.agent_type = t)).bind AgentMemo.risk_score

/-- Observation: the Sales/Risk divergence of a debate record, defined when
both round-0 scores are present. -/
def debateVariance (memos : List AgentMemo) : Option ℚ :=
  match memoScore memos AgentType.Sales, memoScore memos AgentType.Risk with
  | some s, some r => some |s - r|
  | _, _ => none

/-- Observation: whether a debate record contains a Moderator memo. -/
def hasModeratorMemo (memos : List AgentMemo) : Bool :=
  memos.any (fun m => m.agent_type = AgentType.Moderator)

/-- A demo case with no memos at all, used to exercise the
missing-score path of `applyConfidence`. -/
def unscoredCase : DemoCase where
  loan :=
    { id := "w-1"
      company_name := "Witness Co"
      industry := "Testing"
      requested_amount := 100
      extracted_financials := none
      status := LoanStatus.Pending
      workflow_state := "INITIAL_REVIEW"
      final_score := none
      compliance_flag := false
      confidence_score := none }
  memos := []
  riskMatrix := FALLBACK_RISK

theorem confidenceFromVariance_eq (salesScore riskScore : ℚ) :
    confidenceFromVariance salesScore riskScore =
      (jsRound (rawConfidence |salesScore - riskScore| * 100) : ℚ) / 100 := rfl

theorem applyConfidence_demoCase1 :
    applyConfidence demoCase1 =
      { demoCase1 with loan := { demoCase1.loan with
          confidence_score := some (confidenceFromVariance 85 45) } } := rfl

theorem applyConfidence_demoCase2 :
    applyConfidence demoCase2 =
      { demoCase2 with loan := { demoCase2.loan with
          confidence_score := some 1.0 } } := rfl

theorem applyConfidence_demoCase3 :
    applyConfidence demoCase3 =
      { demoCase3 with loan := { demoCase3.loan with
          confidence_score := some (confidenceFromVariance 55 25) } } := rfl

theorem applyConfidence_demoCase4 :
    applyConfidence demoCase4 =
      { demoCase4 with loan := { demoCase4.loan with
          confidence_score := some (confidenceFromVariance 86 35) } } := rfl

theorem rawConfidence_antitone {v1 v2 : ℚ} (h : v1 ≤ v2) :
    rawConfidence v2 ≤ rawConfidence v1 := by
  unfold rawConfidence
  split_ifs <;>
    first
      | linarith
      | (apply max_le <;> linarith)
      | exact max_le (le_max_left _ _) (le_max_of_le_right (by linarith))

theorem le_rawConfidence (v : ℚ) : 1/10 ≤ rawConfidence v := by
  unfold rawConfidence
  split_ifs <;> first | linarith | exact le_max_of_le_left (by norm_num)

theorem rawConfidence_le_one {v : ℚ} (h : 0 ≤ v) : rawConfidence v ≤ 1 := by
  unfold rawConfidence
  split_ifs <;> first | linarith | (apply max_le <;> linarith)

theorem jsRound_mono {q1 q2 : ℚ} (h : q1 ≤ q2) : jsRound q1 ≤ jsRound q2 :=
  Int.floor_le_floor (by linarith)

/-- The rounded confidence always lies in the closed interval `[1/10, 1]`. -/
theorem confidenceFromVariance_mem (salesScore riskScore : ℚ) :
    1/10 ≤ confidenceFromVariance salesScore riskScore ∧
      confidenceFromVariance salesScore riskScore ≤ 1 := by
  rw [confidenceFromVariance_eq]
  have hv : (0 : ℚ) ≤ |salesScore - riskScore| := abs_nonneg _
  have h1 := le_rawConfidence |salesScore - riskScore|
  have h2 := rawConfidence_le_one hv
  have hlo : (10 : ℤ) ≤ jsRound (rawConfidence |salesScore - riskScore| * 100) :=
    Int.le_floor.mpr (by push_cast; linarith)
  have hhi : jsRound (rawConfidence |salesScore - riskScore| * 100) ≤ 100 := by
    have : jsRound (rawConfidence |salesScore - riskScore| * 100) < 101 :=
      Int.floor_lt.mpr (by push_cast; linarith)
    omega
  have hlo' : (10 : ℚ) ≤ (jsRound (rawConfidence |salesScore - riskScore| * 100) : ℚ) := by
    exact_mod_cast hlo
  have hhi' : (jsRound (rawConfidence |salesScore - riskScore| * 100) : ℚ) ≤ 100 := by
    exact_mod_cast hhi
  constructor <;> linarith

theorem specPiecewise_eq_rawConfidence {v : ℚ} (h : 0 ≤ v) :
    specPiecewise v = rawConfidence v := by
  unfold specPiecewise rawConfidence
  rcases le_or_lt v 10 with h1 | h1
  · rw [if_pos (⟨h, h1⟩ : 0 ≤ v ∧ v ≤ 10), if_pos h1]
    norm_num
  · rw [if_neg (fun hc => absurd hc.2 (not_le.mpr h1)), if_neg (not_le.mpr h1)]
    rcases le_or_lt v 20 with h2 | h2
    · rw [if_pos ⟨h1, h2⟩, if_pos h2]
      norm_num
    · rw [if_neg (fun hc => absurd hc.2 (not_le.mpr h2)), if_neg (not_le.mpr h2)]
      rcases le_or_lt v 40 with h3 | h3
      · rw [if_pos ⟨h2, h3⟩, if_pos h3]
        norm_num
      · rw [if_neg (fun hc => absurd hc.2 (not_le.mpr h3)), if_neg (not_le.mpr h3)]
        norm_num

/-- C2 — Confidence law: for scores in `0..100`, `confidenceFromVariance`
equals the spec's piecewise function of `v = |sales − risk|` rounded
half-up to 2 decimal places, and the result lies in `[0.10, 1.00]`. -/
theorem C2_confidence_law (salesScore riskScore : ℚ)
    (_hs0 : 0 ≤ salesScore) (_hs1 : salesScore ≤ 100)
    (_hr0 : 0 ≤ riskScore) (_hr1 : riskScore ≤ 100) :
    confidenceFromVariance salesScore riskScore =
        roundHalfUpTo2 (specPiecewise |salesScore - riskScore|) ∧
      1/10 ≤ confidenceFromVariance salesScore riskScore ∧
      confidenceFromVariance salesScore riskScore ≤ 1 := by
  refine ⟨?_, confidenceFromVariance_mem salesScore riskScore⟩
  rw [confidenceFromVariance_eq, specPiecewise_eq_rawConfidence (abs_nonneg _)]
  rfl

/-- C2 witness: the theorem instantiated at the spec's own boundary
example, Sales 85 / Risk 45 (variance 40). -/
theorem C2_witness :
    (0 : ℚ) ≤ 85 ∧ (85 : ℚ) ≤ 100 ∧ (0 : ℚ) ≤ 45 ∧ (45 : ℚ) ≤ 100 ∧
      (confidenceFromVariance 85 45 =
          roundHalfUpTo2 (specPiecewise |(85 : ℚ) - 45|) ∧
        1/10 ≤ confidenceFromVariance 85 45 ∧
        confidenceFromVariance 85 45 ≤ 1) :=
  ⟨by norm_num, by norm_num, by norm_num, by norm_num,
    C2_confidence_law 85 45 (by norm_num) (by norm_num) (by norm_num) (by norm_num)⟩

/-- C5 — Confidence monotonicity: a pair with strictly smaller variance
gets a confidence at least as large, including after rounding. -/
theorem C5_confidence_antitone (s1 r1 s2 r2 : ℚ)
    (h : |s1 - r1| < |s2 - r2|) :
    confidenceFromVariance s2 r2 ≤ confidenceFromVariance s1 r1 := by
  rw [confidenceFromVariance_eq, confidenceFromVariance_eq]
  have hraw : rawConfidence |s2 - r2| ≤ rawConfidence |s1 - r1| :=
    rawConfidence_antitone h.le
  have hround :
      jsRound (rawConfidence |s2 - r2| * 100) ≤ jsRound (rawConfidence |s1 - r1| * 100) :=
    jsRound_mono (by linarith)
  have : (jsRound (rawConfidence |s2 - r2| * 100) : ℚ) ≤
      (jsRound (rawConfidence |s1 - r1| * 100) : ℚ) := by exact_mod_cast hround
  linarith

/-- C5 witness: variance 0 (scores 50/50) versus variance 41 (scores 0/41). -/
theorem C5_witness :
    |(50 : ℚ) - 50| < |(0 : ℚ) - 41| ∧
      confidenceFromVariance 0 41 ≤ confidenceFromVariance 50 50 :=
  ⟨by norm_num, C5_confidence_antitone 50 50 0 41 (by norm_num)⟩

/-- C8 — Confidence symmetry: the function depends on its arguments only
through `|sales − risk|`, so swapping the arguments changes nothing. -/
theorem C8_confidence_symm (a b : ℚ) :
    confidenceFromVariance a b = confidenceFromVariance b a := by
  unfold confidenceFromVariance
  rw [abs_sub_comm]

/-- C10 — Overall-risk gauge bound: the value displayed by `RiskPanel`,
`min 10 (max 1 (aggregateRisk rm))`, lies in `[1, 10]` for every risk
matrix. -/
theorem C10_overall_risk_bounds (rm : RiskMatrix) :
    1 ≤ overallRisk rm ∧ overallRisk rm ≤ 10 :=
  ⟨le_min (by norm_num) (le_max_left _ _), min_le_left _ _⟩

theorem groupIntoRounds_eq (memos : List AgentMemo) :
    groupIntoRounds memos = groupGo (fun _ => 0) memos := by
  cases memos <;> simp [groupIntoRounds, groupGo]

theorem groupGo_get? (ms : List AgentMemo) :
    ∀ (counts : AgentType → ℕ) (i : ℕ),
      (groupGo counts ms).get? i =
        (ms.get? i).map
          (fun m =>
            (counts m.agent_type +
                (ms.take i).countP (fun x => x.agent_type = m.agent_type), m)) := by
  induction ms with
  | nil => intro counts i; simp [groupGo]
  | cons hd tl ih =>
      intro counts i
      cases i with
      | zero => simp [groupGo]
      | succ n =>
          simp only [groupGo, List.get?, List.take, List.countP_cons, ih]
          cases h : tl.get? n with
          | none => rfl
          | some m =>
              simp only [Option.map_some', Option.some.injEq, Prod.mk.injEq, and_true]
              by_cases hEq : m.agent_type = hd.agent_type
              · simp only [hEq]
                simp
                omega
              · rw [if_neg hEq]
                have hne : ¬(decide (hd.agent_type = m.agent_type) = true) := by
                  simp
                  exact fun hc => hEq hc.symm
                rw [if_neg hne]
                omega

theorem groupGo_map_snd (ms : List AgentMemo) :
    ∀ counts : AgentType → ℕ, (groupGo counts ms).map Prod.snd = ms := by
  induction ms with
  | nil => intro counts; rfl
  | cons hd tl ih => intro counts; simp [groupGo, ih]

/-- C6 — Round grouping by occurrence order: the round index assigned to
the memo at position `i` equals the number of earlier memos in the list
with the same `agent_type`, with memos processed in their given order. -/
theorem C6_round_grouping (memos : List AgentMemo) (i : ℕ) :
    (groupIntoRounds memos).get? i =
      (memos.get? i).map
        (fun m => ((memos.take i).countP (fun x => x.agent_type = m.agent_type), m)) := by
  rw [groupIntoRounds_eq, groupGo_get?]
  simp

/-- C9 — Round grouping preserves the memo list: projecting the memo out
of `groupIntoRounds` gives back exactly the input list. -/
theorem C9_grouping_preserves_memos (memos : List AgentMemo) :
    (groupIntoRounds memos).map Prod.snd = memos := by
  rw [groupIntoRounds_eq, groupGo_map_snd]

/-- C3 counterexample: the claimed equivalence fails in both directions on
shipped records.  Demo case 3 has Sales/Risk divergence 30 > 20 yet no
Moderator memo, while `FALLBACK_MEMOS` has divergence 14 ≤ 20 yet contains
a Moderator memo. -/
theorem C3_counterexample :
    (demoCase3.memos ∈ shippedMemoLists ∧
        debateVariance demoCase3.memos = some 30 ∧ (20 : ℚ) < 30 ∧
        hasModeratorMemo demoCase3.memos = false) ∧
      (FALLBACK_MEMOS ∈ shippedMemoLists ∧
        debateVariance FALLBACK_MEMOS = some 14 ∧ ¬(20 : ℚ) < 14 ∧
        hasModeratorMemo FALLBACK_MEMOS = true) := by
  refine ⟨⟨by decide, ?_, by norm_num, by decide⟩, ⟨by decide, ?_, by norm_num, by decide⟩⟩
  · have hs : memoScore demoCase3.memos AgentType.Sales = some 55 := by decide
    have hr : memoScore demoCase3.memos AgentType.Risk = some 25 := by decide
    unfold debateVariance
    rw [hs, hr]
    norm_num
  · have hs : memoScore FALLBACK_MEMOS AgentType.Sales = some 72 := by decide
    have hr : memoScore FALLBACK_MEMOS AgentType.Risk = some 58 := by decide
    unfold debateVariance
    rw [hs, hr]
    norm_num

/-- C3 amended — every Moderator memo in a shipped debate record sits at
the final position, after all round-0 memos; the claimed equivalence with
divergence > 20 does not hold on the shipped records. -/
theorem C3_moderator_last : ∀ ms ∈ shippedMemoLists, ∀ i : Fin ms.length,
    (ms.get i).agent_type = AgentType.Moderator → i.val + 1 = ms.length := by
  decide

/-- C3 witness: the Moderator memo of `FALLBACK_MEMOS` sits at index 3,
the last of its four memos. -/
theorem C3_witness :
    FALLBACK_MEMOS ∈ shippedMemoLists ∧
      (FALLBACK_MEMOS.get ⟨3, by decide⟩).agent_type = AgentType.Moderator ∧
      3 + 1 = FALLBACK_MEMOS.length :=
  ⟨by decide, by decide,
    C3_moderator_last FALLBACK_MEMOS (by decide) ⟨3, by decide⟩ (by decide)⟩

/-- C1 counterexample: dashboard fixture `demo-3` ships with
`compliance_flag = true` but `final_score = 12.0`, not the forced `0.0`. -/
theorem C1_counterexample :
    mockLoan3 ∈ shippedLoans ∧ mockLoan3.compliance_flag = true ∧
      mockLoan3.final_score = some 12 ∧ mockLoan3.final_score ≠ some 0 := by
  refine ⟨?_, rfl, by norm_num [mockLoan3], by norm_num [mockLoan3]⟩
  simp [shippedLoans, MOCK_LOANS]

/-- C1 amended — veto absolutism, as it actually holds on the shipped
records: every shipped loan with `compliance_flag = true` has status
Rejected and confidence 1.00, and its final score is forced to 0.0 except
for the dashboard fixture `demo-3`, which ships `final_score = 12.0`. -/
theorem C1_veto_overrides (loan : LoanApplication)
    (hmem : loan ∈ shippedLoans) (hflag : loan.compliance_flag = true) :
    loan.status = LoanStatus.Rejected ∧ loan.confidence_score = some 1 ∧
      (loan.id ≠ "demo-3" → loan.final_score = some 0) := by
  simp only [shippedLoans, DEMO_CASES, MOCK_LOANS, List.map_cons, List.map_nil,
    List.cons_append, List.nil_append, List.mem_cons, List.not_mem_nil, or_false] at hmem
  rcases hmem with rfl | rfl | rfl | rfl | rfl | rfl | rfl | rfl
  · rw [applyConfidence_demoCase1] at hflag
    simp [demoCase1] at hflag
  · rw [applyConfidence_demoCase2]
    refine ⟨rfl, ?_, fun _ => ?_⟩ <;> norm_num [demoCase2]
  · rw [applyConfidence_demoCase3] at hflag
    simp [demoCase3] at hflag
  · rw [applyConfidence_demoCase4] at hflag
    simp [demoCase4] at hflag
  · simp [mockLoan1] at hflag
  · simp [mockLoan2] at hflag
  · exact ⟨rfl, by norm_num [mockLoan3], fun hne => absurd rfl hne⟩
  · simp [FALLBACK_LOAN] at hflag

/-- C1 witness: the theorem applied to the vetoed demo case `case-2`. -/
theorem C1_witness :
    (applyConfidence demoCase2).loan ∈ shippedLoans ∧
      (applyConfidence demoCase2).loan.compliance_flag = true ∧
      ((applyConfidence demoCase2).loan.status = LoanStatus.Rejected ∧
        (applyConfidence demoCase2).loan.confidence_score = some 1 ∧
        ((applyConfidence demoCase2).loan.id ≠ "demo-3" →
          (applyConfidence demoCase2).loan.final_score = some 0)) := by
  have hmem : (applyConfidence demoCase2).loan ∈ shippedLoans := by
    simp [shippedLoans, DEMO_CASES]
  exact ⟨hmem, rfl, C1_veto_overrides _ hmem rfl⟩

/-- C4 — Approval threshold: every shipped finalized loan without
compliance veto and with a non-null final score is Approved exactly when
the score reaches 20.0, and Rejected otherwise. -/
theorem C4_approval_threshold (loan : LoanApplication)
    (hmem : loan ∈ shippedLoans) (hflag : loan.compliance_flag = false)
    (hfin : loan.workflow_state = "FINALIZED")
    (s : ℚ) (hs : loan.final_score = some s) :
    (20 ≤ s → loan.status = LoanStatus.Approved) ∧
      (s < 20 → loan.status = LoanStatus.Rejected) := by
  simp only [shippedLoans, DEMO_CASES, MOCK_LOANS, List.map_cons, List.map_nil,
    List.cons_append, List.nil_append, List.mem_cons, List.not_mem_nil, or_false] at hmem
  rcases hmem with rfl | rfl | rfl | rfl | rfl | rfl | rfl | rfl
  · rw [applyConfidence_demoCase1] at hs
    simp [demoCase1] at hs
    subst hs
    exact ⟨fun h => absurd h (by norm_num), fun _ => rfl⟩
  · rw [applyConfidence_demoCase2] at hflag
    simp [demoCase2] at hflag
  · rw [applyConfidence_demoCase3] at hs
    simp [demoCase3] at hs
    subst hs
    exact ⟨fun h => absurd h (by norm_num), fun _ => rfl⟩
  · rw [applyConfidence_demoCase4] at hs
    simp [demoCase4] at hs
    subst hs
    exact ⟨fun _ => rfl, fun h => absurd h (by norm_num)⟩
  · simp [mockLoan1] at hs
    subst hs
    exact ⟨fun _ => rfl, fun h => absurd h (by norm_num)⟩
  · simp [mockLoan2] at hs
  · simp [mockLoan3] at hflag
  · simp [FALLBACK_LOAN] at hs
    subst hs
    exact ⟨fun _ => rfl, fun h => absurd h (by norm_num)⟩

/-- C4 witness: the theorem applied to the approved demo case `case-4`
(final score 20.4 ≥ 20). -/
theorem C4_witness :
    (applyConfidence demoCase4).loan ∈ shippedLoans ∧
      (applyConfidence demoCase4).loan.compliance_flag = false ∧
      (applyConfidence demoCase4).loan.workflow_state = "FINALIZED" ∧
      (applyConfidence demoCase4).loan.final_score = some 20.4 ∧
      ((20 ≤ (20.4 : ℚ) →
          (applyConfidence demoCase4).loan.status = LoanStatus.Approved) ∧
        ((20.4 : ℚ) < 20 →
          (applyConfidence demoCase4).loan.status = LoanStatus.Rejected)) := by
  have hmem : (applyConfidence demoCase4).loan ∈ shippedLoans := by
    simp [shippedLoans, DEMO_CASES]
  exact ⟨hmem, rfl, rfl, rfl, C4_approval_threshold _ hmem rfl rfl 20.4 rfl⟩

/-- C7 — Undefined confidence on missing scores: without a compliance
veto, if the Sales or Risk risk score is absent (memo missing or score
null), `applyConfidence` leaves `confidence_score` null rather than
fabricating a value. -/
theorem C7_confidence_left_undefined (c : DemoCase)
    (hflag : c.loan.compliance_flag = false)
    (hmiss :
      (c.memos.find? (fun m => m.agent_type = AgentType.Sales)).bind
          AgentMemo.risk_score = none ∨
        (c.memos.find? (fun m => m.agent_type = AgentType.Risk)).bind
          AgentMemo.risk_score = none)
    (hnone : c.loan.confidence_score = none) :
    (applyConfidence c).loan.confidence_score = none := by
  simp only [applyConfidence, hflag, Bool.false_eq_true, if_false]
  rcases hmiss with h | h <;> split <;> simp_all

/-- C7 witness: the theorem applied to a demo case with no memos. -/
theorem C7_witness :
    unscoredCase.loan.compliance_flag = false ∧
      ((unscoredCase.memos.find? (fun m => m.agent_type = AgentType.Sales)).bind
          AgentMemo.risk_score = none ∨
        (unscoredCase.memos.find? (fun m => m.agent_type = AgentType.Risk)).bind
          AgentMemo.risk_score = none) ∧
      unscoredCase.loan.confidence_score = none ∧
      (applyConfidence unscoredCase).loan.confidence_score = none :=
  ⟨rfl, Or.inl rfl, rfl, C7_confidence_left_undefined unscoredCase rfl (Or.inl rfl) rfl⟩

end LeadSynthetix
